import Mathlib

/-!
Shallow embedding of the fromblank page server (src/app/storage.py,
src/app/generator.py, src/app/main.py) and proofs about the claims of its
specification.  Pages are keyed by path; generation streams fragments and
persists the concatenation; a guard blocks scanner probes and rate-limits
generation requests.
-/

namespace FromBlank

/-! ### Page store — src/app/storage.py -/

/-- A persisted page record (`pages` table row).  Timestamps are abstracted
to naturals supplied by the caller (the code reads the wall clock). -/
structure Page where
  html_content : String
  prompt_history : List String
  created_at : Nat
  updated_at : Nat
deriving Repr, DecidableEq

/-- The store maps a path to the page stored at it, if any (SQLite table with
`path` as primary key and exact TEXT equality). -/
abbrev Store := String → Option Page

/-- `get_page` (storage.py): exact-match lookup. -/
def get_page (s : Store) (path : String) : Option Page := s path

/-- `save_page` (storage.py): if a page exists at `path`, overwrite
`html_content`, append `prompt` to its history and refresh `updated_at`;
otherwise insert a fresh page with history `[prompt]` and
`created_at = updated_at = now`. -/
def save_page (s : Store) (now : Nat) (path html_content prompt : String) : Store :=
  fun q =>
    if q = path then
      match s path with
      | some pg =>
          some { html_content := html_content
                 prompt_history := pg.prompt_history ++ [prompt]
                 created_at := pg.created_at
                 updated_at := now }
      | none =>
          some { html_content := html_content
                 prompt_history := [prompt]
                 created_at := now
                 updated_at := now }
    else s q

/-- The empty store. -/
def emptyStore : Store := fun _ => none

/-! ### Rate limiter — main.py `RateLimiter` -/

/-- Pruning step of `RateLimiter.is_allowed`: keep the timestamps `t` with
`now - t < window`.  Times are integers standing for the monotonic clock. -/
def prune_hits (window now : ℤ) (hits : List ℤ) : List ℤ :=
  hits.filter (fun t => decide (now - t < window))

/-- `RateLimiter.is_allowed` for one key: prune the recorded hits, reject if
at least `max_requests` remain, otherwise record `now` and admit.  Returns
the decision and the key's new recorded-hit list. -/
def is_allowed (max_requests : Nat) (window now : ℤ) (hits : List ℤ) :
    Bool × List ℤ :=
  let pruned := prune_hits window now hits
  if max_requests ≤ pruned.length then (false, pruned)
  else (true, pruned ++ [now])

/-! ### Path utilities — main.py / posixpath -/

/-- Per-character lowercasing, as `str.lower()` does on the ASCII paths the
guard handles. -/
def lowerStr (s : String) : String := String.mk (s.toList.map Char.toLower)

/-- Characters after the final slash, as `os.path` takes the basename when
splitting an extension. -/
def basenameChars (s : List Char) : List Char :=
  (s.reverse.takeWhile (fun c => c ≠ '/')).reverse

/-- `os.path.splitext(p)[1]`: the extension is the final dot of the basename
and everything after it, except that a run of leading dots (as in `.env`)
yields no extension. -/
def splitext_ext (s : String) : String :=
  let b := basenameChars s.toList
  if (b.dropWhile (fun c => c = '.')).contains '.' then
    String.mk ('.' :: (b.reverse.takeWhile (fun c => c ≠ '.')).reverse)
  else ""

/-- main.py `BLOCKED_EXTENSIONS`. -/
def BLOCKED_EXTENSIONS : List String :=
  [".txt", ".xml", ".json", ".env", ".yml", ".yaml", ".php", ".asp", ".aspx",
   ".jsp", ".cgi", ".pl", ".bak", ".old", ".orig", ".swp", ".sql", ".db",
   ".log", ".ini", ".cfg", ".conf", ".toml", ".htaccess", ".htpasswd",
   ".git", ".svn", ".ds_store", ".ico"]

/-- main.py `BLOCKED_PATHS`. -/
def BLOCKED_PATHS : List String :=
  ["/robots.txt", "/sitemap.xml", "/config.json", "/package.json",
   "/composer.json", "/.env", "/.git/config", "/wp-login.php",
   "/wp-admin", "/admin", "/administrator", "/.well-known",
   "/favicon.ico", "/sse", "/mcp", "/mcp-sse", "/graphql",
   "/api", "/api/", "/.git", "/.svn", "/.DS_Store",
   "/xmlrpc.php", "/wp-cron.php", "/server-status", "/server-info"]

/-- Python `path.startswith("/")`: the first character is a slash. -/
def startsWithSlash (s : String) : Bool :=
  match s.toList with
  | [] => false
  | c :: _ => decide (c = '/')

/-- Path normalization in `serve_page`: empty becomes `/`, a path without a
leading `/` gets one prepended, others pass through. -/
def normalize_serve (path : String) : String :=
  if path = "" then "/"
  else if startsWithSlash path then path
  else "/" ++ path

/-- Python `str.strip()`: drop whitespace from both ends. -/
def pyStrip (s : String) : String :=
  String.mk (((s.toList.dropWhile Char.isWhitespace).reverse.dropWhile
    Char.isWhitespace).reverse)

/-- Path normalization in `api_generate`: `req.path.strip()` then prepend `/`
when missing. -/
def normalize_api (raw : String) : String :=
  let p := pyStrip raw
  if startsWithSlash p then p else "/" ++ p

/-! ### Build-overlay injection and page serving — main.py `serve_page` -/

/-- Does the pattern occur in `s` starting at index `i`? -/
def matchesAt (pat s : List Char) (i : Nat) : Bool :=
  decide ((s.drop i).take pat.length = pat)

/-- All indices at which the pattern occurs in `s`. -/
def subOccs (pat s : List Char) : List Nat :=
  (List.range (s.length + 1)).filter (matchesAt pat s)

/-- Python `s.rfind(pat)` when the pattern occurs: the last occurrence. -/
def rfindSub (pat s : List Char) : Option Nat := (subOccs pat s).getLast?

/-- The closing body tag searched for by the overlay injection. -/
def BODY_CLOSE : List Char := "</body>".toList

/-- Overlay injection in `serve_page`: if `</body>` occurs in the lowercased
document, splice the overlay fragment in before its last occurrence,
otherwise append the fragment at the end. -/
def inject_overlay (html overlay : String) : String :=
  match rfindSub BODY_CLOSE (html.toList.map Char.toLower) with
  | some i =>
      String.mk (html.toList.take i ++ overlay.toList ++ html.toList.drop i)
  | none => String.mk (html.toList ++ overlay.toList)

/-- What `GET /{path}` answers with: a not-found error, a page body, or the
blank shell document. -/
inductive Response where
  | notFound
  | page (html : String)
  | shell
deriving Repr, DecidableEq

/-- Seed for the overlay prompt field: the most recent history entry, empty
when the history is empty. -/
def last_prompt_of (pg : Page) : String := (pg.prompt_history.getLast?).getD ""

/-- `serve_page` (main.py): normalize the path; 404 well-known blocked paths;
404 blocked extensions unless a page exists; then serve the page (with the
overlay injected in build mode) or the blank shell.  `overlay_of` stands for
the rendered overlay fragment (the `OVERLAY_JS` template applied, with its
escaping, to the path and last prompt); the claims do not depend on its
text. -/
def serve_page (overlay_of : String → String → String) (s : Store)
    (rawPath : String) (is_build : Bool) : Response :=
  let path := normalize_serve rawPath
  let path_lower := lowerStr path
  if BLOCKED_PATHS.contains path_lower then Response.notFound
  else if BLOCKED_EXTENSIONS.contains (splitext_ext path_lower)
      && (get_page s path).isNone then Response.notFound
  else
    match is_build, get_page s path with
    | true, some pg =>
        Response.page (inject_overlay pg.html_content
          (overlay_of path (last_prompt_of pg)))
    | true, none => Response.shell
    | false, some pg => Response.page pg.html_content
    | false, none => Response.shell

/-! ### Generation client — src/app/generator.py -/

/-- The apostrophe character, built by code point to keep the source text of
the user message exact. -/
def APOS : String := String.mk [Char.ofNat 39]

/-- generator.py `SYSTEM_PROMPT` (create mode). -/
def SYSTEM_PROMPT : String :=
  "You are a web page generator. You create complete, self-contained HTML pages with inline CSS and JS.\n\nRules:\n- Output ONLY valid HTML. No markdown, no code fences, no explanation — just the raw HTML document.\n- Start with <!DOCTYPE html> and include a complete <html> document.\n- All CSS must be in <style> tags within the document.\n- All JavaScript must be in <script> tags within the document.\n- You may use CDN links for popular libraries (Google Fonts, Font Awesome, Tailwind CSS CDN, etc.) if they enhance the page.\n- Make the pages visually polished, modern, and responsive.\n- Use beautiful typography, spacing, and color schemes.\n- Do NOT include any build overlay, editing UI, or meta-editing functionality.\n- The page should look like a real, production-quality website."

/-- generator.py `REBUILD_SYSTEM_PROMPT` (rebuild mode). -/
def REBUILD_SYSTEM_PROMPT : String :=
  "You are a web page generator. You modify existing HTML pages based on user instructions.\n\nRules:\n- Output ONLY the complete modified HTML. No markdown, no code fences, no explanation — just the raw HTML document.\n- Start with <!DOCTYPE html> and include a complete <html> document.\n- All CSS must be in <style> tags within the document.\n- All JavaScript must be in <script> tags within the document.\n- You may use CDN links for popular libraries if they enhance the page.\n- Preserve the overall structure and content of the existing page unless the user explicitly asks to change it.\n- Make requested modifications cleanly and professionally.\n- Do NOT include any build overlay, editing UI, or meta-editing functionality."

/-- The user message sent in rebuild mode: the existing document, a delimiter,
then the modification request (the f-string in `generate_page_stream`). -/
def rebuild_user_message (current_html prompt : String) : String :=
  "Here is the current page HTML:\n\n" ++ current_html ++
    "\n\n---\n\nUser" ++ APOS ++ "s modification request: " ++ prompt

/-- Message construction in `generate_page_stream`: `if current_html:` —
Python truthiness, so `None` and the empty string both select create mode;
only non-empty prior HTML selects the rebuild instruction mode. -/
def build_messages (prompt : String) (current_html : Option String) :
    String × String :=
  match current_html with
  | some h =>
      if h = "" then (SYSTEM_PROMPT, prompt)
      else (REBUILD_SYSTEM_PROMPT, rebuild_user_message h prompt)
  | none => (SYSTEM_PROMPT, prompt)

/-! ### Generation endpoint — main.py `api_generate` -/

/-- Context selection in `api_generate`: only `mode == "rebuild"` loads the
page, and the context is its `html_content` when the page exists. -/
def api_current_html (s : Store) (mode path : String) : Option String :=
  if mode = "rebuild" then (get_page s path).map Page.html_content else none

/-- The (system, user) pair handed to the backend for a generation request. -/
def generate_invocation (s : Store) (mode path prompt : String) :
    String × String :=
  build_messages prompt (api_current_html s mode path)

/-- Outcome of one backend streaming exchange: the fragments produced, and
whether the backend completed normally or raised mid-stream. -/
inductive GenOutcome where
  | completed (chunks : List String)
  | failed (chunks : List String)

/-- Result of `stream_and_save`: fragments relayed to the caller, the store
afterwards, and whether the request succeeded. -/
structure GenResult where
  streamed : List String
  store : Store
  ok : Bool

/-- `stream_and_save` (main.py): relay and buffer every chunk; when the
backend completes, save the concatenation under the path with the original
prompt; an exception mid-stream propagates before the save line runs. -/
def stream_and_save (s : Store) (now : Nat) (path prompt : String) :
    GenOutcome → GenResult
  | GenOutcome.completed cs =>
      { streamed := cs
        store := save_page s now path (String.join cs) prompt
        ok := true }
  | GenOutcome.failed cs =>
      { streamed := cs, store := s, ok := false }

/-! ### Concrete stores used in counterexamples and witnesses -/

/-- A page stored at `/.env`. -/
def envPage : Page :=
  { html_content := "<p>secrets page</p>", prompt_history := ["env page"],
    created_at := 0, updated_at := 0 }

/-- A store holding only `/.env`. -/
def envStore : Store := fun q => if q = "/.env" then some envPage else none

/-- A store holding one page at `/p`. -/
def c7Store : Store :=
  fun q => if q = "/p" then
    some { html_content := "h0", prompt_history := ["a"], created_at := 0,
           updated_at := 0 }
  else none

/-- A page whose `html_content` is the empty string (as persisted by a
completed-but-empty generation stream). -/
def c6Page : Page :=
  { html_content := "", prompt_history := ["a"], created_at := 0,
    updated_at := 0 }

/-- A store holding the empty-content page at `/x`. -/
def c6Store : Store := fun q => if q = "/x" then some c6Page else none

/-- A store holding a page with non-empty content at `/y`. -/
def c6bStore : Store :=
  fun q => if q = "/y" then
    some { html_content := "<p>h</p>", prompt_history := ["a"],
           created_at := 0, updated_at := 0 }
  else none

/-- A page with a blocked extension in its path. -/
def txtPage : Page :=
  { html_content := "<p>t</p>", prompt_history := ["t"], created_at := 0,
    updated_at := 0 }

/-- A store holding only `/page.txt`. -/
def txtStore : Store := fun q => if q = "/page.txt" then some txtPage else none

/-- Result of a completed generation for the blocked well-known path
`/admin`. -/
def c3Result : GenResult :=
  stream_and_save emptyStore 0 "/admin" "p"
    (GenOutcome.completed ["<h1>", "hi</h1>"])

/-- A page stored at the lowercase path `/a`. -/
def c9Page : Page :=
  { html_content := "ha", prompt_history := ["pa"], created_at := 0,
    updated_at := 0 }

/-- A store holding only `/a`, to exhibit exact-match lookup. -/
def c9Store : Store := fun q => if q = "/a" then some c9Page else none

/-! ### Helper lemmas -/

theorem getLast_filter_range (p : Nat → Bool) (n i : Nat) (hi : i < n)
    (hp : p i = true) (hmax : ∀ j, i < j → j < n → p j = false) :
    ((List.range n).filter p).getLast? = some i := by
  induction n with
  | zero => omega
  | succ m ih =>
    rw [List.range_succ m, List.filter_append]
    by_cases hm : i = m
    · subst hm
      have h1 : List.filter p [i] = [i] := by simp [List.filter, hp]
      rw [h1]
      exact List.getLast?_concat _
    · have him : i < m := by omega
      have hpm : p m = false := hmax m him (Nat.lt_succ_self m)
      have h0 : List.filter p [m] = [] := by simp [List.filter, hpm]
      rw [h0, List.append_nil]
      exact ih him (fun j hj1 hj2 => hmax j hj1 (Nat.lt_succ_of_lt hj2))

theorem matchesAt_lt_of_true (pat s : List Char) (i : Nat) (hpat : pat ≠ [])
    (h : matchesAt pat s i = true) : i < s.length + 1 := by
  by_contra hc
  push_neg at hc
  have hlen : s.length ≤ i := by omega
  rw [matchesAt, List.drop_eq_nil_of_le hlen] at h
  simp at h
  exact hpat h

theorem rfindSub_eq_some (pat s : List Char) (i : Nat) (hpat : pat ≠ [])
    (hp : matchesAt pat s i = true)
    (hmax : ∀ j, i < j → j < s.length + 1 → matchesAt pat s j = false) :
    rfindSub pat s = some i :=
  getLast_filter_range _ _ i (matchesAt_lt_of_true pat s i hpat hp) hp hmax

theorem rfindSub_eq_none (pat s : List Char)
    (h : ∀ j, j < s.length + 1 → matchesAt pat s j = false) :
    rfindSub pat s = none := by
  have h0 : subOccs pat s = [] := by
    rw [subOccs, List.filter_eq_nil_iff]
    intro a ha
    rw [List.mem_range] at ha
    simp [h a ha]
  rw [rfindSub, h0]
  rfl

theorem prune_prune (w now now' : ℤ) (h : now ≤ now') (hits : List ℤ) :
    prune_hits w now' (prune_hits w now hits) = prune_hits w now' hits := by
  induction hits with
  | nil => rfl
  | cons t ts ih =>
    simp only [prune_hits, List.filter_cons] at *
    by_cases h2 : now' - t < w
    · have h1 : now - t < w := by linarith
      simp [h1, h2, ih]
    · by_cases h1 : now - t < w <;> simp [h1, h2, ih]

/-! ### Claim theorems -/

/-- Claim C5: the rate limiter admits a request exactly when fewer than
`max_requests` recorded hits for the key fall strictly within the last
`window` seconds; concretely, with `max=2, window=60`, three rapid requests
have the third rejected and a request after the window elapses is admitted
again. -/
theorem C5_sliding_window :
    (∀ (m : Nat) (w now : ℤ) (hits : List ℤ),
        (is_allowed m w now hits).1 = true ↔
          hits.countP (fun t => decide (now - t < w)) < m) ∧
    ((is_allowed 2 60 0 []).1 = true ∧
     (is_allowed 2 60 1 (is_allowed 2 60 0 []).2).1 = true ∧
     (is_allowed 2 60 2
        (is_allowed 2 60 1 (is_allowed 2 60 0 []).2).2).1 = false ∧
     (is_allowed 2 60 62
        (is_allowed 2 60 2
          (is_allowed 2 60 1 (is_allowed 2 60 0 []).2).2).2).1 = true) := by
  constructor
  · intro m w now hits
    rw [List.countP_eq_length_filter]
    unfold is_allowed prune_hits
    by_cases h : m ≤ (List.filter (fun t => decide (now - t < w)) hits).length
    · simp only [h, if_true]
      constructor
      · intro hfalse
        cases hfalse
      · intro hlt
        omega
    · simp only [h, if_false]
      constructor
      · intro _
        omega
      · intro _
        trivial
  · exact ⟨by decide, by decide, by decide, by decide⟩

/-- Claim C10: a call to `is_allowed` that rejects leaves the key's recorded
timestamps equal to the pruned list (nothing is appended), and any later call
behaves exactly as it would have on the unpruned state — rejections never
extend the lockout. -/
theorem C10_reject_no_record (m : Nat) (w now : ℤ) (hits : List ℤ)
    (hrej : (is_allowed m w now hits).1 = false) :
    (is_allowed m w now hits).2 = prune_hits w now hits ∧
    ∀ now', now ≤ now' →
      is_allowed m w now' ((is_allowed m w now hits).2) =
        is_allowed m w now' hits := by
  have hle : m ≤ (prune_hits w now hits).length := by
    by_contra hc
    unfold is_allowed at hrej
    simp only [hc, if_false] at hrej
    cases hrej
  have hsnd : (is_allowed m w now hits).2 = prune_hits w now hits := by
    unfold is_allowed
    simp only [hle, if_true]
  refine ⟨hsnd, ?_⟩
  intro now' hn
  rw [hsnd]
  unfold is_allowed
  rw [prune_prune w now now' hn hits]

/-- Witness for C10 at a concrete rejection: `max=1`, a hit at time 0, a
rejected call at time 5 and a later call at time 10. -/
theorem C10_reject_no_record_witness :
    (is_allowed 1 60 5 [0]).2 = prune_hits 60 5 [0] ∧
      is_allowed 1 60 10 ((is_allowed 1 60 5 [0]).2) =
        is_allowed 1 60 10 [0] := by
  have h := C10_reject_no_record 1 60 5 [0] (by decide)
  exact ⟨h.1, h.2 10 (by norm_num)⟩

/-- Claim C7: `save_page` always appends to the history — saving twice with
identical arguments ends the history with the prompt twice, and a save over
an existing page keeps every prior entry in order as a prefix. -/
theorem C7_history_append (s : Store) (now1 now2 : Nat)
    (path html prompt : String) :
    (∀ pg, get_page s path = some pg →
        get_page (save_page s now1 path html prompt) path =
          some { html_content := html
                 prompt_history := pg.prompt_history ++ [prompt]
                 created_at := pg.created_at
                 updated_at := now1 }) ∧
    (∃ H, (get_page
        (save_page (save_page s now1 path html prompt) now2 path html prompt)
        path).map Page.prompt_history = some (H ++ [prompt, prompt])) := by
  constructor
  · intro pg hpg
    unfold get_page at hpg
    unfold get_page save_page
    simp [hpg]
  · cases hpg : s path with
    | none =>
      refine ⟨[], ?_⟩
      unfold get_page save_page
      simp [hpg]
    | some pg =>
      refine ⟨pg.prompt_history, ?_⟩
      unfold get_page save_page
      simp [hpg]

/-- Witness for C7 on a store with one page at `/p`. -/
theorem C7_history_append_witness :
    get_page (save_page c7Store 1 "/p" "h" "b") "/p" =
      some { html_content := "h", prompt_history := ["a", "b"],
             created_at := 0, updated_at := 1 } ∧
    (∃ H, (get_page (save_page (save_page c7Store 1 "/p" "h" "b") 2 "/p" "h" "b")
        "/p").map Page.prompt_history = some (H ++ ["b", "b"])) := by
  have h := C7_history_append c7Store 1 2 "/p" "h" "b"
  refine ⟨?_, h.2⟩
  have h1 := h.1 { html_content := "h0", prompt_history := ["a"],
                   created_at := 0, updated_at := 0 } rfl
  simpa using h1

/-- Claim C8: a first save on a fresh path sets `created_at = updated_at`;
every save over an existing page keeps its `created_at` and moves
`updated_at` to the new write time. -/
theorem C8_timestamps (s : Store) (now1 now2 : Nat)
    (path html1 prompt1 html2 prompt2 : String) :
    (get_page s path = none →
      (get_page (save_page s now1 path html1 prompt1) path).map Page.created_at
          = some now1 ∧
      (get_page (save_page s now1 path html1 prompt1) path).map Page.updated_at
          = some now1) ∧
    (∀ pg, get_page s path = some pg →
      (get_page (save_page s now2 path html2 prompt2) path).map Page.created_at
          = some pg.created_at ∧
      (get_page (save_page s now2 path html2 prompt2) path).map Page.updated_at
          = some now2) ∧
    (get_page s path = none →
      (get_page (save_page (save_page s now1 path html1 prompt1) now2 path
          html2 prompt2) path).map Page.created_at = some now1 ∧
      (get_page (save_page (save_page s now1 path html1 prompt1) now2 path
          html2 prompt2) path).map Page.updated_at = some now2) := by
  refine ⟨?_, ?_, ?_⟩
  · intro hpg
    unfold get_page at hpg
    unfold get_page save_page
    simp [hpg]
  · intro pg hpg
    unfold get_page at hpg
    unfold get_page save_page
    simp [hpg]
  · intro hpg
    unfold get_page at hpg
    unfold get_page save_page
    simp [hpg]

/-- Witness for C8 on the empty store and the path `/f`. -/
theorem C8_timestamps_witness :
    ((get_page (save_page emptyStore 3 "/f" "h1" "p1") "/f").map Page.created_at
        = some 3 ∧
     (get_page (save_page emptyStore 3 "/f" "h1" "p1") "/f").map Page.updated_at
        = some 3) ∧
    ((get_page (save_page (save_page emptyStore 3 "/f" "h1" "p1") 7 "/f" "h2"
        "p2") "/f").map Page.created_at = some 3 ∧
     (get_page (save_page (save_page emptyStore 3 "/f" "h1" "p1") 7 "/f" "h2"
        "p2") "/f").map Page.updated_at = some 7) := by
  have h := C8_timestamps emptyStore 3 7 "/f" "h1" "p1" "h2" "p2"
  exact ⟨h.1 rfl, h.2.2 rfl⟩

/-- Claim C2 counterexample: a backend stream that completes having produced
no fragments is persisted — `save_page` runs with the empty string and the
request succeeds — contradicting the claim that an empty result surfaces as
a failure with no save. -/
theorem C2_counterexample :
    (stream_and_save emptyStore 0 "/a" "p" (GenOutcome.completed [])).ok
        = true ∧
    get_page (stream_and_save emptyStore 0 "/a" "p"
        (GenOutcome.completed [])).store "/a" =
      some { html_content := "", prompt_history := ["p"], created_at := 0,
             updated_at := 0 } := by
  exact ⟨rfl, rfl⟩

/-- Claim C2 (amended): a backend error during streaming surfaces as a failed
request with no store write and the path's history unchanged; a stream that
completes — even one with no content — is persisted via `save_page` with the
concatenation of its fragments. -/
theorem C2_backend_failure (s : Store) (now : Nat) (path prompt : String)
    (cs : List String) :
    ((stream_and_save s now path prompt (GenOutcome.failed cs)).ok = false ∧
     (stream_and_save s now path prompt (GenOutcome.failed cs)).store = s ∧
     (get_page (stream_and_save s now path prompt
        (GenOutcome.failed cs)).store path).map Page.prompt_history =
       (get_page s path).map Page.prompt_history) ∧
    (stream_and_save s now path prompt (GenOutcome.completed cs)).store =
      save_page s now path (String.join cs) prompt := by
  exact ⟨⟨rfl, rfl, rfl⟩, rfl⟩

/-- Claim C6 counterexample: with a page stored at `/x` whose `html_content`
is empty, a rebuild request is sent in create mode — the system prompt is the
create one, not the rebuild one — contradicting the claim that rebuild with
an existing page always selects the rebuild instruction mode. -/
theorem C6_counterexample :
    get_page c6Store "/x" = some c6Page ∧
    generate_invocation c6Store "rebuild" "/x" "p" = (SYSTEM_PROMPT, "p") ∧
    SYSTEM_PROMPT ≠ REBUILD_SYSTEM_PROMPT := by
  refine ⟨rfl, rfl, ?_⟩
  decide

/-- Claim C6 (amended): a rebuild request over an existing page with
non-empty content invokes the backend in rebuild mode with the stored
document embedded before the delimited instruction; a create request, a
request over a missing page, or a rebuild over an empty stored document all
invoke the backend in create mode with no context. -/
theorem C6_context_selection (s : Store) (mode path prompt : String) :
    (∀ pg, mode = "rebuild" → get_page s path = some pg →
        pg.html_content ≠ "" →
        generate_invocation s mode path prompt =
          (REBUILD_SYSTEM_PROMPT,
            rebuild_user_message pg.html_content prompt)) ∧
    (mode = "create" →
        generate_invocation s mode path prompt = (SYSTEM_PROMPT, prompt)) ∧
    (get_page s path = none →
        generate_invocation s mode path prompt = (SYSTEM_PROMPT, prompt)) ∧
    (∀ pg, mode = "rebuild" → get_page s path = some pg →
        pg.html_content = "" →
        generate_invocation s mode path prompt = (SYSTEM_PROMPT, prompt)) := by
  refine ⟨?_, ?_, ?_, ?_⟩
  · intro pg hmode hpg hne
    subst hmode
    unfold generate_invocation api_current_html build_messages
    simp [hpg, hne]
  · intro hmode
    subst hmode
    unfold generate_invocation api_current_html build_messages
    simp
  · intro hpg
    unfold generate_invocation api_current_html build_messages
    by_cases hmode : mode = "rebuild" <;> simp [hmode, hpg]
  · intro pg hmode hpg he
    subst hmode
    unfold generate_invocation api_current_html build_messages
    simp [hpg, he]

/-- Witness for C6 (amended) across its four cases: rebuild with content,
create mode, missing page, and rebuild over empty content. -/
theorem C6_context_selection_witness :
    generate_invocation c6bStore "rebuild" "/y" "p" =
      (REBUILD_SYSTEM_PROMPT, rebuild_user_message "<p>h</p>" "p") ∧
    generate_invocation c6bStore "create" "/y" "p" = (SYSTEM_PROMPT, "p") ∧
    generate_invocation emptyStore "rebuild" "/z" "p" = (SYSTEM_PROMPT, "p") ∧
    generate_invocation c6Store "rebuild" "/x" "p" = (SYSTEM_PROMPT, "p") := by
  refine ⟨?_, ?_, ?_, ?_⟩
  · exact (C6_context_selection c6bStore "rebuild" "/y" "p").1
      { html_content := "<p>h</p>", prompt_history := ["a"], created_at := 0,
        updated_at := 0 } rfl rfl (by decide)
  · exact (C6_context_selection c6bStore "create" "/y" "p").2.1 rfl
  · exact (C6_context_selection emptyStore "rebuild" "/z" "p").2.2.1 rfl
  · exact (C6_context_selection c6Store "rebuild" "/x" "p").2.2.2 c6Page rfl
      rfl rfl

/-- Claim C1 counterexample: `/.env` is on the well-known blocked list, and
that check never consults the store — a request for it is answered not-found
even though a page is stored at exactly `/.env`, contradicting the claim that
existing pages are always servable. -/
theorem C1_counterexample :
    get_page envStore "/.env" = some envPage ∧
    serve_page (fun _ _ => "") envStore ".env" false = Response.notFound := by
  exact ⟨rfl, by decide⟩

/-- Claim C1 (amended): a request whose normalized path lowercases into the
well-known blocked list is always answered not-found, even when a page is
stored there; a path with a blocked extension that is not on that list is
answered not-found exactly when no page exists at the exact path, and when a
page does exist a plain request serves its stored content. -/
theorem C1_denylist (ov : String → String → String) (s : Store)
    (raw : String) :
    (lowerStr (normalize_serve raw) ∈ BLOCKED_PATHS →
       ∀ b, serve_page ov s raw b = Response.notFound) ∧
    (lowerStr (normalize_serve raw) ∉ BLOCKED_PATHS →
     splitext_ext (lowerStr (normalize_serve raw)) ∈ BLOCKED_EXTENSIONS →
       ((∀ b, serve_page ov s raw b = Response.notFound ↔
           get_page s (normalize_serve raw) = none) ∧
        (∀ pg, get_page s (normalize_serve raw) = some pg →
           serve_page ov s raw false = Response.page pg.html_content))) := by
  constructor
  · intro hb b
    unfold serve_page
    simp [hb]
  · intro hb he
    constructor
    · intro b
      unfold serve_page
      cases hgp : get_page s (normalize_serve raw) with
      | none => simp [hb, he, hgp]
      | some pg =>
        simp [hb, he, hgp]
        cases b <;> simp
    · intro pg hgp
      unfold serve_page
      simp [hb, he, hgp]

/-- Witness for C1 (amended): the blocked path `/.env` with a stored page, a
blocked-extension path on the empty store, and a blocked-extension path with
a stored page. -/
theorem C1_denylist_witness :
    serve_page (fun _ _ => "") envStore ".env" true = Response.notFound ∧
    (serve_page (fun _ _ => "") emptyStore "page.txt" false = Response.notFound
        ↔ get_page emptyStore "/page.txt" = none) ∧
    serve_page (fun _ _ => "") txtStore "page.txt" false =
      Response.page "<p>t</p>" := by
  refine ⟨(C1_denylist (fun _ _ => "") envStore ".env").1 (by decide) true,
    ((C1_denylist (fun _ _ => "") emptyStore "page.txt").2 (by decide)
      (by decide)).1 false, ?_⟩
  exact ((C1_denylist (fun _ _ => "") txtStore "page.txt").2 (by decide)
    (by decide)).2 txtPage rfl

/-- Claim C3 counterexample: a generation for `/admin` completes and is
persisted, but a subsequent GET of `/admin` is answered not-found by the
well-known-path denylist rather than with the streamed concatenation. -/
theorem C3_counterexample :
    c3Result.ok = true ∧
    (get_page c3Result.store "/admin").map Page.html_content =
      some "<h1>hi</h1>" ∧
    serve_page (fun _ _ => "") c3Result.store "admin" false =
      Response.notFound ∧
    Response.notFound ≠ Response.page (String.join c3Result.streamed) := by
  exact ⟨rfl, rfl, by decide, by decide⟩

/-- Claim C3 (amended): a completed generation streams its fragments
unchanged and saves their concatenation with the original prompt; provided
the normalized path is not on the well-known blocked list, a subsequent plain
GET of it returns exactly the streamed concatenation, and on a fresh path the
stored history is the one-element list holding the original prompt. -/
theorem C3_stream_persist (ov : String → String → String) (s : Store)
    (now : Nat) (p prompt raw : String) (cs : List String)
    (hnorm : normalize_serve raw = p)
    (hnb : lowerStr p ∉ BLOCKED_PATHS) :
    (stream_and_save s now p prompt (GenOutcome.completed cs)).streamed = cs ∧
    (get_page (stream_and_save s now p prompt
        (GenOutcome.completed cs)).store p).map Page.html_content =
      some (String.join cs) ∧
    serve_page ov (stream_and_save s now p prompt
        (GenOutcome.completed cs)).store raw false =
      Response.page (String.join cs) ∧
    (get_page s p = none →
      (get_page (stream_and_save s now p prompt
          (GenOutcome.completed cs)).store p).map Page.prompt_history =
        some [prompt]) := by
  have hget : ∃ pg, get_page (stream_and_save s now p prompt
      (GenOutcome.completed cs)).store p = some pg ∧
      pg.html_content = String.join cs := by
    unfold stream_and_save get_page save_page
    cases hsp : s p with
    | none =>
      refine ⟨{ html_content := String.join cs, prompt_history := [prompt],
                created_at := now, updated_at := now }, ?_, rfl⟩
      simp [hsp]
    | some pg =>
      refine ⟨{ html_content := String.join cs,
                prompt_history := pg.prompt_history ++ [prompt],
                created_at := pg.created_at, updated_at := now }, ?_, rfl⟩
      simp [hsp]
  obtain ⟨pg, hpg, hhtml⟩ := hget
  refine ⟨rfl, ?_, ?_, ?_⟩
  · rw [hpg]
    simp [hhtml]
  · unfold serve_page
    rw [hnorm]
    simp [hnb, hpg, hhtml]
  · intro hnone
    unfold get_page at hnone
    unfold stream_and_save get_page save_page
    simp [hnone]

/-- Witness for C3 (amended): generating `/about` on the empty store. -/
theorem C3_stream_persist_witness :
    serve_page (fun _ _ => "")
      (stream_and_save emptyStore 0 "/about" "company about page"
        (GenOutcome.completed ["<p>", "a", "</p>"])).store "about" false =
      Response.page (String.join ["<p>", "a", "</p>"]) ∧
    (get_page (stream_and_save emptyStore 0 "/about" "company about page"
        (GenOutcome.completed ["<p>", "a", "</p>"])).store "/about").map
      Page.prompt_history = some ["company about page"] := by
  have h := C3_stream_persist (fun _ _ => "") emptyStore 0 "/about"
    "company about page" "about" ["<p>", "a", "</p>"] (by decide) (by decide)
  exact ⟨h.2.2.1, h.2.2.2 rfl⟩

/-- Claim C4 counterexample: a document with two closing body tags has the
overlay spliced before the last one, so the claimed insertion before an
arbitrary matched position fails at the first occurrence (position 0). -/
theorem C4_counterexample :
    matchesAt BODY_CLOSE (("</body></body>").toList.map Char.toLower) 0 =
      true ∧
    inject_overlay "</body></body>" "<o>" = "</body><o></body>" ∧
    "</body><o></body>" ≠ "<o></body></body>" := by
  exact ⟨by decide, by decide, by decide⟩

/-- Claim C4 (amended): serving an existing page in build mode responds with
the stored HTML carrying the injected overlay fragment; the fragment is
inserted immediately before the last case-insensitive occurrence of the
closing body tag, and appended at the document end when no closing body tag
occurs. -/
theorem C4_overlay_injection (html overlay : String) :
    (∀ ov s raw pg,
       lowerStr (normalize_serve raw) ∉ BLOCKED_PATHS →
       get_page s (normalize_serve raw) = some pg →
       serve_page ov s raw true = Response.page (inject_overlay pg.html_content
         (ov (normalize_serve raw) (last_prompt_of pg)))) ∧
    (∀ i, matchesAt BODY_CLOSE (html.toList.map Char.toLower) i = true →
       (∀ j, j < (html.toList.map Char.toLower).length + 1 → i < j →
          matchesAt BODY_CLOSE (html.toList.map Char.toLower) j = false) →
       inject_overlay html overlay =
         String.mk (html.toList.take i ++ overlay.toList ++
           html.toList.drop i)) ∧
    ((∀ j, j < (html.toList.map Char.toLower).length + 1 →
        matchesAt BODY_CLOSE (html.toList.map Char.toLower) j = false) →
      inject_overlay html overlay = html ++ overlay) := by
  refine ⟨?_, ?_, ?_⟩
  · intro ov s raw pg hnb hpg
    unfold serve_page
    simp [hnb, hpg]
  · intro i hi hmax
    unfold inject_overlay
    rw [rfindSub_eq_some BODY_CLOSE _ i (by decide) hi
      (fun j hj1 hj2 => hmax j hj2 hj1)]
  · intro hnone
    unfold inject_overlay
    rw [rfindSub_eq_none BODY_CLOSE _ hnone]
    show String.mk (html.toList ++ overlay.toList) = html ++ overlay
    rfl

/-- Witness for C4 (amended): the build response for the stored page at `/a`,
an injection before the tag at position 7 of `<body>x</body>`, and an
append for a document with no closing body tag. -/
theorem C4_overlay_injection_witness :
    serve_page (fun _ _ => "[ov]") c9Store "a" true =
      Response.page (inject_overlay "ha"
        ((fun _ _ => "[ov]") "/a" (last_prompt_of c9Page))) ∧
    inject_overlay "<body>x</body>" "<o>" =
      String.mk (("<body>x</body>").toList.take 7 ++ ("<o>").toList ++
        ("<body>x</body>").toList.drop 7) ∧
    inject_overlay "plain" "<o>" = "plain" ++ "<o>" := by
  refine ⟨?_, (C4_overlay_injection "<body>x</body>" "<o>").2.1 7 (by decide)
    (by decide), (C4_overlay_injection "plain" "<o>").2.2 (by decide)⟩
  exact (C4_overlay_injection "" "").1 (fun _ _ => "[ov]") c9Store "a"
    c9Page (by decide) rfl

/-- Claim C9 counterexample: the generation endpoint strips surrounding
whitespace before normalizing — the path `" about"` does not start with `/`
yet is normalized to `/about`, not to the claim's slash-prepended
`"/ about"`. -/
theorem C9_counterexample :
    startsWithSlash " about" = false ∧
    normalize_api " about" = "/about" ∧
    "/about" ≠ "/" ++ " about" := by
  exact ⟨rfl, rfl, by decide⟩

/-- Claim C9 (amended): serve-side normalization maps the empty path to `/`,
keeps paths that start with `/`, and prepends `/` otherwise; the generation
endpoint first strips surrounding whitespace and then normalizes the same
way; store lookup and save use exact string matching on the normalized path,
with no case folding and no trailing-slash collapsing. -/
theorem C9_normalization (s : Store) (now : Nat)
    (p q raw html prompt : String) :
    (normalize_serve "" = "/" ∧
     (startsWithSlash raw = true → normalize_serve raw = raw) ∧
     (raw ≠ "" → startsWithSlash raw = false →
        normalize_serve raw = "/" ++ raw)) ∧
    normalize_api raw = normalize_serve (pyStrip raw) ∧
    (p ≠ q → get_page (save_page s now p html prompt) q = get_page s q) ∧
    (get_page c9Store "/a" = some c9Page ∧ get_page c9Store "/A" = none ∧
     get_page c9Store "/a/" = none) := by
  refine ⟨⟨rfl, ?_, ?_⟩, ?_, ?_, rfl, rfl, rfl⟩
  · intro hs
    unfold normalize_serve
    by_cases h0 : raw = ""
    · subst h0
      cases hs
    · simp [h0, hs]
  · intro h0 hs
    unfold normalize_serve
    simp [h0, hs]
  · unfold normalize_api normalize_serve
    by_cases h0 : pyStrip raw = ""
    · rw [h0]
      simp [startsWithSlash]
    · by_cases hs : startsWithSlash (pyStrip raw) <;> simp [h0, hs]
  · intro hpq
    have hqp : q ≠ p := fun h => hpq h.symm
    unfold get_page save_page
    simp [hqp]

/-- Witness for C9 (amended): slash-prepending on `about`, and a save at `/a`
leaving the distinct path `/A` untouched. -/
theorem C9_normalization_witness :
    normalize_serve "about" = "/" ++ "about" ∧
    get_page (save_page c9Store 0 "/a" "h2" "p2") "/A" =
      get_page c9Store "/A" := by
  have h := C9_normalization c9Store 0 "/a" "/A" "about" "h2" "p2"
  exact ⟨h.1.2.2 (by decide) (by decide), h.2.2.1 (by decide)⟩

end FromBlank
